import Mathlib

/-!
Verification of `verify_docs.py`, a Playwright smoke-test script.

The script runs a fixed sequence of asynchronous browser-automation calls:

  browser = await p.chromium.launch()
  page = await browser.new_page()
  try:
      await page.goto("https://florisboard.github.io/florisboard/")
      await page.wait_for_selector("h1", timeout=10000)
      await page.screenshot(path="docs_screenshot.png")
      print("Documentation page loaded successfully and screenshot taken.")
  except Exception as e:
      print(f"Error verifying documentation page: " + str(e))   -- f-string in source
  finally:
      await browser.close()

We embed the run shallowly: each external call's outcome is a field of an
environment `Env` (`none` = the call returns normally, `some e` = the call
raises an exception whose description is `e`), and the run is a pure
function from `Env` to an event trace plus the exception, if any, that
escapes `verify_docs` uncaught.  Note the structure of the source: the
`launch` and `new_page` calls sit OUTSIDE the `try`/`except`/`finally`;
only `goto`, `wait_for_selector`, `screenshot` and the success `print` are
guarded, and `browser.close()` runs only when the `finally` block is
reached.
-/

namespace VerifyDocs

/-- The fixed target URL hardcoded in the script. -/
def targetUrl : String := "https://florisboard.github.io/florisboard/"

/-- The fixed screenshot output path hardcoded in the script. -/
def screenshotPath : String := "docs_screenshot.png"

/-- The selector passed to `wait_for_selector`. -/
def headingSelector : String := "h1"

/-- The timeout, in milliseconds, passed to `wait_for_selector`. -/
def waitTimeoutMs : Nat := 10000

/-- The success line printed inside the `try` block. -/
def successMsg : String := "Documentation page loaded successfully and screenshot taken."

/-- The error line printed by the `except` handler; the f-string embeds the
exception description `e` after the fixed text. -/
def errMsg (e : String) : String := "Error verifying documentation page: " ++ e

/-- Outcome of each fallible external call the script makes, in program
order.  A field is `none` when the call returns normally and `some e` when
the call raises an exception described by `e`.  A later field is irrelevant
when an earlier call raises, since execution never reaches it. -/
structure Env where
  launchErr : Option String
  newPageErr : Option String
  gotoErr : Option String
  waitErr : Option String
  screenshotErr : Option String
deriving DecidableEq

/-- Observable events of one run, in the order the script performs them.
Only the `wait` event carries a timeout, because `wait_for_selector` is the
only call the script passes a timeout to.  The `screenshot` event records
the path argument and the effective `full_page` flag: the script passes
only `path`, and Playwright's `full_page` option defaults to `False`
(viewport-only capture), so the flag recorded for the script's call is
`false`. -/
inductive Event where
  | launch : Event
  | newPage : Event
  | goto : String → Event
  | wait : String → Nat → Event
  | screenshot : String → Bool → Event
  | printLine : String → Event
  | close : Event
deriving DecidableEq

/-- Result of one run of `verify_docs`: the trace of completed events, and
the exception escaping the function uncaught, if any. -/
structure RunResult where
  trace : List Event
  uncaught : Option String
deriving DecidableEq

/-- Events produced by the `try`/`except` part of the script: `goto`, then
`wait_for_selector`, then `screenshot`, then the success print; the first
raising call jumps to the handler, which prints the error line. -/
def tryEvents (env : Env) : List Event :=
  match env.gotoErr with
  | some e => [Event.printLine (errMsg e)]
  | none =>
    Event.goto targetUrl ::
    match env.waitErr with
    | some e => [Event.printLine (errMsg e)]
    | none =>
      Event.wait headingSelector waitTimeoutMs ::
      match env.screenshotErr with
      | some e => [Event.printLine (errMsg e)]
      | none => [Event.screenshot screenshotPath false, Event.printLine successMsg]

/-- One run of `verify_docs`.  `launch` and `new_page` happen before the
`try` block: when either raises, the exception escapes `verify_docs`
uncaught and the `finally` block (hence `browser.close()`) never runs.
Once the `try` block is entered, every path — success, caught exception —
ends in the `finally` block's `close`. -/
def verify_docs (env : Env) : RunResult :=
  match env.launchErr with
  | some e => { trace := [], uncaught := some e }
  | none =>
    match env.newPageErr with
    | some e => { trace := [Event.launch], uncaught := some e }
    | none =>
      { trace := Event.launch :: Event.newPage :: (tryEvents env ++ [Event.close])
        uncaught := none }

/-- Lines the run prints to standard output, in order. -/
def printedLines (r : RunResult) : List String :=
  r.trace.filterMap fun ev =>
    match ev with
    | Event.printLine s => some s
    | _ => none

/-- Screenshots the run captures: output path and effective full-page flag,
in order. -/
def writtenShots (r : RunResult) : List (String × Bool) :=
  r.trace.filterMap fun ev =>
    match ev with
    | Event.screenshot p fp => some (p, fp)
    | _ => none

/-- Number of times the run awaits `browser.close()`. -/
def closeCount (r : RunResult) : Nat :=
  (r.trace.filter fun ev =>
    match ev with
    | Event.close => true
    | _ => false).length

/-- Exit status of the process: `asyncio.run` re-raises an exception
escaping `verify_docs`, and an uncaught exception makes the interpreter
exit with status 1; otherwise the process exits 0. -/
def exitStatus (env : Env) : Nat :=
  match (verify_docs env).uncaught with
  | some _ => 1
  | none => 0

/-- All five external calls return normally. -/
def allOk (env : Env) : Prop :=
  env.launchErr = none ∧ env.newPageErr = none ∧ env.gotoErr = none ∧
    env.waitErr = none ∧ env.screenshotErr = none

instance (env : Env) : Decidable (allOk env) := by
  unfold allOk
  infer_instance

/-- Writing a file at path `p` into a filesystem modelled as the list of
existing paths: overwriting an existing path adds no new path. -/
def writeFile (fs : List String) (p : String) : List String :=
  if p ∈ fs then fs else fs ++ [p]

/-- Effect of one run on the set of existing file paths: each captured
screenshot is written at its path. -/
def runFs (env : Env) (fs : List String) : List String :=
  (writtenShots (verify_docs env)).foldl (fun acc s => writeFile acc s.1) fs

/-- C1 counterexample: in the run where navigation succeeds, the heading
appears within the wait, but the screenshot capture itself raises, no
screenshot is recorded and the success message is not printed, so the claim
as stated (quantified over every run in which navigation succeeds and the
heading appears) is false. -/
theorem c1_counterexample :
    Event.goto targetUrl ∈
      (verify_docs ⟨none, none, none, none, some "shot failed"⟩).trace ∧
    Event.wait headingSelector waitTimeoutMs ∈
      (verify_docs ⟨none, none, none, none, some "shot failed"⟩).trace ∧
    writtenShots (verify_docs ⟨none, none, none, none, some "shot failed"⟩) = [] ∧
    printedLines (verify_docs ⟨none, none, none, none, some "shot failed"⟩) ≠
      [successMsg] := by
  decide

/-- C1 (amended): in every run in which launch, page creation, navigation,
the heading wait, and the screenshot capture all succeed, the run captures
exactly one screenshot at the fixed path "docs_screenshot.png", prints the
success message, and awaits `browser.close()` before the run ends, with no
exception escaping. -/
theorem c1_success_behavior (env : Env)
    (hl : env.launchErr = none) (hn : env.newPageErr = none)
    (hg : env.gotoErr = none) (hw : env.waitErr = none)
    (hs : env.screenshotErr = none) :
    writtenShots (verify_docs env) = [(screenshotPath, false)] ∧
    printedLines (verify_docs env) = [successMsg] ∧
    closeCount (verify_docs env) = 1 ∧
    (verify_docs env).uncaught = none := by
  simp [verify_docs, tryEvents, writtenShots, printedLines, closeCount,
    hl, hn, hg, hw, hs]

/-- C1 witness: the fully successful run, with the theorem's hypotheses
discharged at the concrete environment where every call succeeds. -/
theorem c1_witness :
    writtenShots (verify_docs ⟨none, none, none, none, none⟩) =
      [(screenshotPath, false)] ∧
    printedLines (verify_docs ⟨none, none, none, none, none⟩) = [successMsg] ∧
    closeCount (verify_docs ⟨none, none, none, none, none⟩) = 1 ∧
    (verify_docs ⟨none, none, none, none, none⟩).uncaught = none :=
  c1_success_behavior ⟨none, none, none, none, none⟩ rfl rfl rfl rfl rfl

/-- C2 counterexample: when opening the page (`browser.new_page()`, step 2)
raises, the exception is NOT caught — no line is printed and the exception
escapes `verify_docs` uncaught — because `new_page` sits outside the `try`
block, so the claim's coverage of step 2 is false. -/
theorem c2_counterexample :
    printedLines (verify_docs ⟨none, some "new page failed", none, none, none⟩) = [] ∧
    (verify_docs ⟨none, some "new page failed", none, none, none⟩).uncaught =
      some "new page failed" ∧
    writtenShots (verify_docs ⟨none, some "new page failed", none, none, none⟩) = [] := by
  decide

/-- C2 (amended): in every run in which launch and page creation succeed and
then either navigation or the heading wait raises (including a timeout),
the exception is caught, the single failure line printed is the fixed text
with the error detail appended, and no screenshot is captured. -/
theorem c2_caught_failures (env : Env) (e : String)
    (hl : env.launchErr = none) (hn : env.newPageErr = none)
    (h : env.gotoErr = some e ∨ (env.gotoErr = none ∧ env.waitErr = some e)) :
    printedLines (verify_docs env) = [errMsg e] ∧
    errMsg e = "Error verifying documentation page: " ++ e ∧
    writtenShots (verify_docs env) = [] ∧
    (verify_docs env).uncaught = none := by
  rcases h with hg | ⟨hg, hw⟩ <;>
    simp [verify_docs, tryEvents, printedLines, writtenShots, errMsg,
      hl, hn, hg]
  simp [hw]

/-- C2 witness: a run whose navigation raises, with the theorem's
hypotheses discharged at a concrete environment. -/
theorem c2_witness :
    printedLines (verify_docs ⟨none, none, some "net::ERR_FAILED", none, none⟩) =
      [errMsg "net::ERR_FAILED"] ∧
    errMsg "net::ERR_FAILED" =
      "Error verifying documentation page: " ++ "net::ERR_FAILED" ∧
    writtenShots (verify_docs ⟨none, none, some "net::ERR_FAILED", none, none⟩) = [] ∧
    (verify_docs ⟨none, none, some "net::ERR_FAILED", none, none⟩).uncaught = none :=
  c2_caught_failures ⟨none, none, some "net::ERR_FAILED", none, none⟩
    "net::ERR_FAILED" rfl rfl (Or.inl rfl)

/-- C3 counterexample: launch succeeds (the session is acquired, witnessed
by the launch event), `new_page` then raises, and the run never awaits
`browser.close()` — the session leaks, because `new_page` sits between the
acquisition and the `try`/`finally` that performs the release. -/
theorem c3_counterexample :
    Event.launch ∈ (verify_docs ⟨none, some "boom", none, none, none⟩).trace ∧
    closeCount (verify_docs ⟨none, some "boom", none, none, none⟩) = 0 := by
  decide

/-- C3 (amended): in every run that enters the `try` block (launch and page
creation both succeed), `browser.close()` is awaited exactly once before
the run ends, on every exit path — success, timeout, navigation error, or
screenshot error; when `new_page` raises after acquisition, the release is
skipped. -/
theorem c3_close_once (env : Env)
    (hl : env.launchErr = none) (hn : env.newPageErr = none) :
    closeCount (verify_docs env) = 1 := by
  rcases env with ⟨l, np, g, w, s⟩
  simp only at hl hn
  subst hl hn
  rcases g with _ | eg <;> rcases w with _ | ew <;> rcases s with _ | es <;>
    simp [verify_docs, tryEvents, closeCount]

/-- C3 witness: a run that times out on the heading wait, with the
theorem's hypotheses discharged at a concrete environment. -/
theorem c3_witness :
    closeCount (verify_docs ⟨none, none, none, some "Timeout 10000ms exceeded", none⟩) = 1 :=
  c3_close_once ⟨none, none, none, some "Timeout 10000ms exceeded", none⟩ rfl rfl

/-- C4 counterexample: when the browser launch raises, the exception
escapes `verify_docs`, `asyncio.run` re-raises it, and the process exits
with status 1, so "every failure mode exits 0" is false. -/
theorem c4_counterexample :
    exitStatus ⟨some "browser executable not found", none, none, none, none⟩ = 1 := by
  decide

/-- C4 (amended): in every run in which launch and page creation succeed,
the process exits with status 0 regardless of any later failure
(navigation, timeout, screenshot); failures in those steps are reported
only via the printed text.  A failure in launch or page creation, however,
escapes uncaught and the process exits nonzero. -/
theorem c4_exit_zero (env : Env)
    (hl : env.launchErr = none) (hn : env.newPageErr = none) :
    exitStatus env = 0 := by
  rcases env with ⟨l, np, g, w, s⟩
  simp only at hl hn
  subst hl hn
  rcases g with _ | eg <;> rcases w with _ | ew <;> rcases s with _ | es <;>
    simp [exitStatus, verify_docs, tryEvents]

/-- C4 witness: a run that fails on the heading wait still exits 0, with
the theorem's hypotheses discharged at a concrete environment. -/
theorem c4_witness :
    exitStatus ⟨none, none, none, some "Timeout 10000ms exceeded", none⟩ = 0 :=
  c4_exit_zero ⟨none, none, none, some "Timeout 10000ms exceeded", none⟩ rfl rfl

/-- C5 counterexample: when the browser launch raises, the run prints zero
lines to standard output (the interpreter's traceback goes to standard
error), so "exactly one line in every run" is false. -/
theorem c5_counterexample :
    printedLines (verify_docs ⟨some "launch failed", none, none, none, none⟩) = [] := by
  decide

/-- C5 (amended): in every run in which launch and page creation succeed,
exactly one line is printed to standard output — either the success
confirmation or an error line embedding the caught exception's description,
never both and never zero.  Runs that fail in launch or page creation
print zero lines. -/
theorem c5_one_line (env : Env)
    (hl : env.launchErr = none) (hn : env.newPageErr = none) :
    (printedLines (verify_docs env)).length = 1 ∧
    (printedLines (verify_docs env) = [successMsg] ∨
      ∃ e, printedLines (verify_docs env) = [errMsg e]) := by
  rcases env with ⟨l, np, g, w, s⟩
  simp only at hl hn
  subst hl hn
  rcases g with _ | eg <;> rcases w with _ | ew <;> rcases s with _ | es <;>
    simp [verify_docs, tryEvents, printedLines]

/-- C5 witness: the fully successful run prints exactly one line, with the
theorem's hypotheses discharged at a concrete environment. -/
theorem c5_witness :
    (printedLines (verify_docs ⟨none, none, some "connection refused", none, none⟩)).length = 1 ∧
    (printedLines (verify_docs ⟨none, none, some "connection refused", none, none⟩) =
        [successMsg] ∨
      ∃ e, printedLines (verify_docs ⟨none, none, some "connection refused", none, none⟩) =
        [errMsg e]) :=
  c5_one_line ⟨none, none, some "connection refused", none, none⟩ rfl rfl

/-- C6: in every run in which any of the five external calls raises, no
screenshot is captured; and whenever a screenshot is captured, it is the
single file at the fixed path, captured on the branch that also prints the
success message. -/
theorem c6_file_only_on_success (env : Env) :
    ((env.launchErr ≠ none ∨ env.newPageErr ≠ none ∨ env.gotoErr ≠ none ∨
        env.waitErr ≠ none ∨ env.screenshotErr ≠ none) →
      writtenShots (verify_docs env) = []) ∧
    (writtenShots (verify_docs env) ≠ [] →
      writtenShots (verify_docs env) = [(screenshotPath, false)] ∧
      printedLines (verify_docs env) = [successMsg]) := by
  rcases env with ⟨l, np, g, w, s⟩
  rcases l with _ | el <;> rcases np with _ | en <;> rcases g with _ | eg <;>
    rcases w with _ | ew <;> rcases s with _ | es <;>
    simp [verify_docs, tryEvents, writtenShots, printedLines]

/-- C6 witness: a run whose navigation raises captures no screenshot, via
the theorem applied at a concrete environment. -/
theorem c6_witness :
    writtenShots (verify_docs ⟨none, none, some "net::ERR_NAME_NOT_RESOLVED", none, none⟩) = [] :=
  (c6_file_only_on_success ⟨none, none, some "net::ERR_NAME_NOT_RESOLVED", none, none⟩).1
    (by simp)

/-- C7 counterexample: on the fully successful run the single screenshot
captured at the fixed path has its full-page flag `false` — the script
passes only `path` to `page.screenshot` and Playwright's `full_page`
option defaults to `False` — so the captured image is a viewport capture,
not a full-page one. -/
theorem c7_counterexample :
    writtenShots (verify_docs ⟨none, none, none, none, none⟩) =
      [(screenshotPath, false)] ∧
    (screenshotPath, true) ∉ writtenShots (verify_docs ⟨none, none, none, none, none⟩) := by
  decide

/-- C7 (amended): on success of the heading wait (and of the capture call
itself), the screenshot captured to the fixed filename is a viewport
screenshot: the `full_page` option is left at its default `False`. -/
theorem c7_viewport_screenshot (env : Env)
    (hl : env.launchErr = none) (hn : env.newPageErr = none)
    (hg : env.gotoErr = none) (hw : env.waitErr = none)
    (hs : env.screenshotErr = none) :
    writtenShots (verify_docs env) = [(screenshotPath, false)] := by
  simp [verify_docs, tryEvents, writtenShots, hl, hn, hg, hw, hs]

/-- C7 witness: the fully successful run, with the theorem's hypotheses
discharged at the concrete environment where every call succeeds. -/
theorem c7_witness :
    writtenShots (verify_docs ⟨none, none, none, none, none⟩) =
      [(screenshotPath, false)] :=
  c7_viewport_screenshot ⟨none, none, none, none, none⟩ rfl rfl rfl rfl rfl

/-- C8: in every run, the steps occur in the fixed order navigate, then
wait-for-heading, then screenshot.  Whenever a screenshot event occurs, the
trace is exactly the full success trace, in which the screenshot follows
the completed wait; whenever a wait event occurs, it is the wait on the
heading selector with the 10000 ms timeout and it directly follows the
navigation.  The `Event` type gives a timeout field only to the wait
event, mirroring that the source passes a timeout only to
`wait_for_selector`; this theorem pins its value to 10000 ms. -/
theorem c8_step_order (env : Env) :
    (∀ p b, Event.screenshot p b ∈ (verify_docs env).trace →
      (verify_docs env).trace =
        [Event.launch, Event.newPage, Event.goto targetUrl,
          Event.wait headingSelector waitTimeoutMs,
          Event.screenshot screenshotPath false,
          Event.printLine successMsg, Event.close]) ∧
    (∀ sel tm, Event.wait sel tm ∈ (verify_docs env).trace →
      sel = headingSelector ∧ tm = waitTimeoutMs ∧
      (verify_docs env).trace.take 4 =
        [Event.launch, Event.newPage, Event.goto targetUrl,
          Event.wait headingSelector waitTimeoutMs]) := by
  rcases env with ⟨l, np, g, w, s⟩
  rcases l with _ | el <;> rcases np with _ | en <;> rcases g with _ | eg <;>
    rcases w with _ | ew <;> rcases s with _ | es <;>
    refine ⟨fun p b hmem => ?_, fun sel tm hmem => ?_⟩ <;>
    simp_all [verify_docs, tryEvents]

/-- C8 witness: on the fully successful run the screenshot event is present
and the theorem yields the full ordered trace. -/
theorem c8_witness :
    (verify_docs ⟨none, none, none, none, none⟩).trace =
      [Event.launch, Event.newPage, Event.goto targetUrl,
        Event.wait headingSelector waitTimeoutMs,
        Event.screenshot screenshotPath false,
        Event.printLine successMsg, Event.close] :=
  (c8_step_order ⟨none, none, none, none, none⟩).1 screenshotPath false (by decide)

/-- In a run where every call succeeds, the run's effect on the filesystem
is exactly one write of the fixed screenshot path. -/
theorem runFs_allOk (env : Env) (h : allOk env) (fs : List String) :
    runFs env fs = writeFile fs screenshotPath := by
  obtain ⟨hl, hn, hg, hw, hs⟩ := h
  simp [runFs, verify_docs, tryEvents, writtenShots, hl, hn, hg, hw, hs]

/-- C9: two successful runs write to the same fixed screenshot path, the
second overwriting the first: starting from an empty filesystem, the set of
output paths after the second successful run equals the set after the
first, both are the single fixed path, and iterating a successful run any
positive number of times leaves exactly that one path. -/
theorem c9_overwrite_deterministic (env1 env2 : Env)
    (h1 : allOk env1) (h2 : allOk env2) :
    runFs env1 [] = [screenshotPath] ∧
    runFs env2 (runFs env1 []) = runFs env1 [] ∧
    ∀ n, (runFs env1)^[n + 1] [] = [screenshotPath] := by
  have hbase : runFs env1 [] = [screenshotPath] := by
    simp [runFs_allOk env1 h1, writeFile]
  refine ⟨hbase, ?_, ?_⟩
  · simp [hbase, runFs_allOk env2 h2, writeFile]
  · intro n
    induction n with
    | zero => simpa using hbase
    | succ n ih =>
      rw [Function.iterate_succ_apply', ih, runFs_allOk env1 h1]
      simp [writeFile]

/-- C9 witness: two fully successful runs from the empty filesystem, with
the theorem's hypotheses discharged at the concrete all-success
environment. -/
theorem c9_witness :
    runFs ⟨none, none, none, none, none⟩ [] = [screenshotPath] ∧
    runFs ⟨none, none, none, none, none⟩
        (runFs ⟨none, none, none, none, none⟩ []) =
      runFs ⟨none, none, none, none, none⟩ [] ∧
    ∀ n, (runFs ⟨none, none, none, none, none⟩)^[n + 1] [] = [screenshotPath] :=
  c9_overwrite_deterministic ⟨none, none, none, none, none⟩
    ⟨none, none, none, none, none⟩ (by decide) (by decide)

/-- C10: when launch, page creation, navigation and the heading wait all
succeed but the screenshot call itself raises, the same catch-all handles
it: the run prints the error line instead of the success line, captures no
screenshot, still awaits `browser.close()` exactly once, and no exception
escapes. -/
theorem c10_screenshot_error_caught (env : Env) (e : String)
    (hl : env.launchErr = none) (hn : env.newPageErr = none)
    (hg : env.gotoErr = none) (hw : env.waitErr = none)
    (hs : env.screenshotErr = some e) :
    printedLines (verify_docs env) = [errMsg e] ∧
    writtenShots (verify_docs env) = [] ∧
    closeCount (verify_docs env) = 1 ∧
    (verify_docs env).uncaught = none := by
  simp [verify_docs, tryEvents, printedLines, writtenShots, closeCount,
    hl, hn, hg, hw, hs]

/-- C10 witness: a run whose screenshot call raises, with the theorem's
hypotheses discharged at a concrete environment. -/
theorem c10_witness :
    printedLines (verify_docs ⟨none, none, none, none, some "capture failed"⟩) =
      [errMsg "capture failed"] ∧
    writtenShots (verify_docs ⟨none, none, none, none, some "capture failed"⟩) = [] ∧
    closeCount (verify_docs ⟨none, none, none, none, some "capture failed"⟩) = 1 ∧
    (verify_docs ⟨none, none, none, none, some "capture failed"⟩).uncaught = none :=
  c10_screenshot_error_caught ⟨none, none, none, none, some "capture failed"⟩
    "capture failed" rfl rfl rfl rfl rfl

end VerifyDocs
